import Mathlib

/-!
Shallow embedding of `src/app/main.py` (Cached Search Engine API Service).

The program has two parts:
* a loader `fetch_all_messages` that mirrors a paginated upstream feed into an
  in-memory snapshot with bounded retries and exponential backoff, invoked once
  from `startup_event`;
* a query endpoint `search_messages` that serves case-insensitive substring
  search with pagination over the cached snapshot.

Network I/O is modelled by an oracle `Upstream : Nat → Nat → FetchOutcome`
giving, for each requested offset (`skip`) and retry attempt index, either a
failure (any transport error, non-2xx status, or JSON-decode error — all are
caught by the same `except` arms in the source) or a parsed JSON body.
Sleeping and log output have no observable effect on the returned data, except
for the final count-mismatch warning, which we record as a `Bool` in the
result so that its (non-)raising behaviour is statable.

Python's `str.lower()` is modelled as a per-character lowering of the string's
character list, and `needle in hay` as contiguous-substring containment on
character lists.  The `while skip < total` loop is modelled with a structural
fuel parameter (`total - skip` steps always suffice since each iteration adds
`UPSTREAM_PAGE_LIMIT ≥ 1` to `skip`); the usual while-loop unfolding equation
is proved below (`offsetList_eq`, `fetchRemaining_eq`), so the fuel never
appears in reasoning.
-/

set_option maxRecDepth 40000

namespace App

/-- `UPSTREAM_PAGE_LIMIT = 100` from `main.py`. -/
def UPSTREAM_PAGE_LIMIT : Nat := 100

/-- `MAX_RETRIES = 5` from `main.py`. -/
def MAX_RETRIES : Nat := 5

/-- A message record (`class Message`): five string fields.  The search
predicate reads `message` and `user_name` via `dict.get(_, "")`; for records
shaped like `Message` the default is never taken, so the fields are plain
strings here. -/
structure Msg where
  id : String
  user_id : String
  user_name : String
  timestamp : String
  message : String
  deriving Repr, DecidableEq

/-- The first list occurs at the head of the second (on character lists). -/
def headMatch : List Char → List Char → Bool
  | [], _ => true
  | _ :: _, [] => false
  | a :: as, b :: bs => a == b && headMatch as bs

/-- `n` occurs as a contiguous run somewhere in the second list. -/
def occursIn (n : List Char) : List Char → Bool
  | [] => n.isEmpty
  | c :: t => headMatch n (c :: t) || occursIn n t

/-- Python's `s.lower()`, viewed as the lower-cased character list of `s`. -/
def lower (s : String) : List Char :=
  s.data.map Char.toLower

/-- The inner predicate `is_match` of `search_messages`: the lower-cased
`message` field or the lower-cased `user_name` field contains the
(already normalized, lower-cased) query as a substring. -/
def is_match (normalized_query : List Char) (msg : Msg) : Bool :=
  occursIn normalized_query (lower msg.message) || occursIn normalized_query (lower msg.user_name)

/-- `class SearchResult`: the response model of the `/search` endpoint. -/
structure SearchResult where
  total_matches : Nat
  page_number : Nat
  page_limit : Nat
  items : List Msg
  deriving Repr, DecidableEq

/-- Outcome of a `/search` call: either the HTTP 503 `ServiceUnavailable`
raised when the cache is empty, or a `SearchResult`. -/
inductive SearchOutcome where
  | serviceUnavailable
  | ok (result : SearchResult)
  deriving Repr, DecidableEq

/-- The list of items carried by a search outcome (`[]` for the 503 case);
used to state pagination claims. -/
def SearchOutcome.itemsOf : SearchOutcome → List Msg
  | .serviceUnavailable => []
  | .ok r => r.items

/-- `search_messages` from `main.py`.  `MESSAGES_CACHE` is the snapshot the
endpoint reads; `query`, `page`, `limit` are the validated query parameters
(`page ≥ 1`, `1 ≤ limit ≤ 100`, `query` non-empty are enforced by FastAPI
before this body runs).  The Python slice `l[s:e]` with `0 ≤ s ≤ e` is
`(l.take e).drop s`. -/
def search_messages (MESSAGES_CACHE : List Msg) (query : String) (page limit : Nat) :
    SearchOutcome :=
  if MESSAGES_CACHE.isEmpty then
    .serviceUnavailable
  else
    let normalized_query := lower query
    let matching_messages := MESSAGES_CACHE.filter (is_match normalized_query)
    let total_matches := matching_messages.length
    let start_index := (page - 1) * limit
    let end_index := start_index + limit
    let paginated_results := (matching_messages.take end_index).drop start_index
    .ok ⟨total_matches, page, limit, paginated_results⟩

/-- A parsed JSON body of one upstream page response.  `total` models
`data.get("total", 0)` (absent field → `none`); `items` models
`data.get("items", [])` (absent field → `none`). -/
structure RespBody where
  total : Option Nat
  items : Option (List Msg)
  deriving Repr, DecidableEq

/-- Outcome of a single GET attempt: `failure` for any transport error,
non-2xx status (`raise_for_status`) or JSON error — all retried alike —
or a successfully parsed body. -/
inductive FetchOutcome where
  | failure
  | success (body : RespBody)
  deriving Repr, DecidableEq

/-- The upstream service as an oracle: `u skip attempt` is the outcome of the
GET at offset `skip` on the retry loop's `attempt`-th try (0-based). -/
abbrev Upstream := Nat → Nat → FetchOutcome

/-- `for attempt in range(MAX_RETRIES): try ... break / except ... sleep`:
returns the body of the first successful attempt, or `none` when the loop
completes without a `break` (all retries exhausted).  `fuel` counts the
remaining attempts, `attempt` the current attempt index. -/
def attemptLoop (f : Nat → FetchOutcome) : Nat → Nat → Option RespBody
  | 0, _ => none
  | fuel + 1, attempt =>
    match f attempt with
    | .success body => some body
    | .failure => attemptLoop f fuel (attempt + 1)

/-- Result of `fetch_all_messages`: either the `ConnectionError` raised when
the first page's retries are exhausted (`CriticalLoadFailure`), or the
accumulated snapshot together with a flag recording whether the final
count-mismatch warning was printed. -/
inductive LoadResult where
  | criticalFailure
  | loaded (snapshot : List Msg) (mismatchWarning : Bool)
  deriving Repr, DecidableEq

/-- Items obtained for one later page at offset `skip`: the retry loop's
body on success extends `all_data` with `data.get("items", [])`; exhausting
the retries only logs, contributing nothing. -/
def pageItems (upstream : Upstream) (skip : Nat) : List Msg :=
  match attemptLoop (upstream skip) MAX_RETRIES 0 with
  | some body => body.items.getD []
  | none => []

/-- Fuelled form of the offsets visited by the `while skip < total` loop:
`skip, skip + 100, skip + 200, ...` strictly below `total`. -/
def offsetListAux (total : Nat) : Nat → Nat → List Nat
  | 0, _ => []
  | fuel + 1, skip =>
    if skip < total then
      skip :: offsetListAux total fuel (skip + UPSTREAM_PAGE_LIMIT)
    else
      []

/-- The offsets the `while skip < total` loop of `fetch_all_messages`
attempts, starting from `skip`. -/
def offsetList (total skip : Nat) : List Nat :=
  offsetListAux total (total - skip) skip

/-- Fuelled form of the `while skip < total` loop of `fetch_all_messages`:
sequentially fetch each offset while below `total`, concatenating each
page's items (failures contribute nothing and the loop advances). -/
def fetchRemainingAux (upstream : Upstream) (total : Nat) : Nat → Nat → List Msg
  | 0, _ => []
  | fuel + 1, skip =>
    if skip < total then
      pageItems upstream skip ++ fetchRemainingAux upstream total fuel (skip + UPSTREAM_PAGE_LIMIT)
    else
      []

/-- The `while skip < total` loop of `fetch_all_messages`, entered at
offset `skip`. -/
def fetchRemaining (upstream : Upstream) (total skip : Nat) : List Msg :=
  fetchRemainingAux upstream total (total - skip) skip

/-- `fetch_all_messages` from `main.py`.  Step 1 retries the offset-0 GET up
to `MAX_RETRIES` times; exhaustion raises `ConnectionError`.  On success
`total := data.get("total", 0)`; `total == 0` returns the empty snapshot at
once.  Otherwise the first page's items are kept, the guard
`total and total > UPSTREAM_PAGE_LIMIT` (with `total ≠ 0` known here) enters
the sequential while loop at `skip = UPSTREAM_PAGE_LIMIT`, and finally
`fetched_count != total` decides the mismatch warning. -/
def fetch_all_messages (upstream : Upstream) : LoadResult :=
  match attemptLoop (upstream 0) MAX_RETRIES 0 with
  | none => .criticalFailure
  | some data =>
    let total := data.total.getD 0
    if total = 0 then
      .loaded [] false
    else
      let all_data :=
        if UPSTREAM_PAGE_LIMIT < total then
          data.items.getD [] ++ fetchRemaining upstream total UPSTREAM_PAGE_LIMIT
        else
          data.items.getD []
      .loaded all_data (decide (all_data.length ≠ total))

/-- `startup_event` from `main.py`: `MESSAGES_CACHE` starts as `[]`; a
`ConnectionError` (and any other exception) from the load is caught and
logged, leaving the cache empty, so the process keeps running.  The value is
the final `MESSAGES_CACHE`. -/
def startup_event (upstream : Upstream) : List Msg :=
  match fetch_all_messages upstream with
  | .criticalFailure => []
  | .loaded snapshot _ => snapshot

/-! ### Concrete inputs used to instantiate the theorems -/

/-- First record of the spec's worked example. -/
def m1 : Msg := ⟨"1", "u1", "alice", "t1", "Hello World"⟩

/-- Second record of the spec's worked example. -/
def m2 : Msg := ⟨"2", "u2", "Bob Hello", "t2", "bye"⟩

/-- The spec's worked-example snapshot. -/
def exCache : List Msg := [m1, m2]

/-- An upstream that fails every request. -/
def uFail : Upstream := fun _ _ => .failure

/-- An upstream whose first page reports `total = 0`. -/
def uZero : Upstream := fun _ _ => .success ⟨some 0, some []⟩

/-- An upstream whose first page carries items but no `"total"` field. -/
def uNoTotal : Upstream := fun _ _ => .success ⟨none, some [m1]⟩

/-- The spec's loader example: `total = 250`, every page full, but the page at
offset 200 fails permanently. -/
def u250 : Upstream := fun skip _ =>
  if skip = 200 then .failure
  else .success ⟨some 250, some (List.replicate (min 100 (250 - skip)) m1)⟩

/-- A fully successful upstream with `total = 150` and exact page sizes. -/
def u150 : Upstream := fun skip _ =>
  .success ⟨some 150, some (List.replicate (min 100 (150 - skip)) m1)⟩

/-- The first-page body served by `u250`. -/
def body250 : RespBody := ⟨some 250, some (List.replicate 100 m1)⟩

/-- The first-page body served by `u150`. -/
def body150 : RespBody := ⟨some 150, some (List.replicate 100 m1)⟩

/-! ### While-loop unfolding equations and loop facts -/

/-- With the loop condition false, the fuelled offset loop yields `[]` for any
fuel. -/
theorem offsetListAux_stop (total skip : Nat) (h : ¬ skip < total) :
    ∀ fuel, offsetListAux total fuel skip = [] := by
  intro fuel
  cases fuel <;> simp [offsetListAux, h]

/-- Fuel irrelevance: any fuel at least `total - skip` computes the same
offset list. -/
theorem offsetListAux_congr (total : Nat) :
    ∀ fuel fuel' skip, total - skip ≤ fuel → total - skip ≤ fuel' →
      offsetListAux total fuel skip = offsetListAux total fuel' skip := by
  intro fuel
  induction fuel with
  | zero =>
    intro fuel' skip h h'
    have hc : ¬ skip < total := by omega
    rw [offsetListAux_stop total skip hc, offsetListAux_stop total skip hc]
  | succ n ih =>
    intro fuel' skip h h'
    by_cases hc : skip < total
    · obtain ⟨m, rfl⟩ : ∃ m, fuel' = m + 1 := by
        cases fuel' with
        | zero => exact absurd h' (by omega)
        | succ m => exact ⟨m, rfl⟩
      have hL : 0 < UPSTREAM_PAGE_LIMIT := by decide
      simp only [offsetListAux, if_pos hc]
      rw [ih m (skip + UPSTREAM_PAGE_LIMIT) (by omega) (by omega)]
    · rw [offsetListAux_stop total skip hc, offsetListAux_stop total skip hc]

/-- The while-loop unfolding equation for `offsetList`. -/
theorem offsetList_eq (total skip : Nat) :
    offsetList total skip =
      if skip < total then skip :: offsetList total (skip + UPSTREAM_PAGE_LIMIT) else [] := by
  by_cases hc : skip < total
  · have hL : 0 < UPSTREAM_PAGE_LIMIT := by decide
    obtain ⟨k, hk⟩ : ∃ k, total - skip = k + 1 := ⟨total - skip - 1, by omega⟩
    rw [if_pos hc]
    unfold offsetList
    rw [hk]
    simp only [offsetListAux, if_pos hc]
    rw [offsetListAux_congr total k (total - (skip + UPSTREAM_PAGE_LIMIT))
      (skip + UPSTREAM_PAGE_LIMIT) (by omega) (by omega)]
  · rw [if_neg hc]
    unfold offsetList
    exact offsetListAux_stop total skip hc _

/-- The fuelled page loop is the concatenation of `pageItems` over the fuelled
offset list. -/
theorem fetchRemainingAux_eq_flatten (u : Upstream) (total : Nat) :
    ∀ fuel skip,
      fetchRemainingAux u total fuel skip =
        ((offsetListAux total fuel skip).map (pageItems u)).flatten := by
  intro fuel
  induction fuel with
  | zero => intro skip; simp [fetchRemainingAux, offsetListAux]
  | succ n ih =>
    intro skip
    by_cases hc : skip < total
    · simp only [fetchRemainingAux, offsetListAux, if_pos hc, List.map_cons, List.flatten_cons]
      rw [ih]
    · simp [fetchRemainingAux, offsetListAux, hc]

/-- The while loop of `fetch_all_messages` concatenates, in offset order, the
items obtained for each attempted offset. -/
theorem fetchRemaining_eq_flatten (u : Upstream) (total skip : Nat) :
    fetchRemaining u total skip = ((offsetList total skip).map (pageItems u)).flatten :=
  fetchRemainingAux_eq_flatten u total (total - skip) skip

/-- The while-loop unfolding equation for `fetchRemaining`. -/
theorem fetchRemaining_eq (u : Upstream) (total skip : Nat) :
    fetchRemaining u total skip =
      if skip < total then
        pageItems u skip ++ fetchRemaining u total (skip + UPSTREAM_PAGE_LIMIT)
      else
        [] := by
  rw [fetchRemaining_eq_flatten, offsetList_eq]
  by_cases hc : skip < total
  · simp [if_pos hc, fetchRemaining_eq_flatten]
  · simp [if_neg hc]

/-- Membership in `offsetList total skip`: exactly the offsets
`skip + i * UPSTREAM_PAGE_LIMIT` strictly below `total`. -/
theorem mem_offsetList (total skip s : Nat) :
    s ∈ offsetList total skip ↔ (∃ i, s = skip + i * UPSTREAM_PAGE_LIMIT) ∧ s < total := by
  rw [offsetList_eq]
  have hL : UPSTREAM_PAGE_LIMIT = 100 := rfl
  by_cases hc : skip < total
  · rw [if_pos hc]
    simp only [List.mem_cons]
    rw [mem_offsetList total (skip + UPSTREAM_PAGE_LIMIT) s]
    constructor
    · rintro (rfl | ⟨⟨i, rfl⟩, hlt⟩)
      · exact ⟨⟨0, by omega⟩, hc⟩
      · exact ⟨⟨i + 1, by rw [hL] at *; omega⟩, hlt⟩
    · rintro ⟨⟨i, rfl⟩, hlt⟩
      cases i with
      | zero => left; omega
      | succ j =>
        right
        refine ⟨⟨j, by rw [hL] at *; omega⟩, hlt⟩
  · rw [if_neg hc]
    simp only [List.not_mem_nil, false_iff, not_and]
    rintro ⟨i, rfl⟩
    omega
termination_by total - skip
decreasing_by simp only [UPSTREAM_PAGE_LIMIT] at *; omega

/-- The attempted offsets are strictly increasing (offset order). -/
theorem offsetList_pairwise (total skip : Nat) :
    List.Pairwise (· < ·) (offsetList total skip) := by
  rw [offsetList_eq]
  by_cases hc : skip < total
  · rw [if_pos hc]
    refine List.Pairwise.cons ?_ (offsetList_pairwise total (skip + UPSTREAM_PAGE_LIMIT))
    intro b hb
    rw [mem_offsetList] at hb
    obtain ⟨⟨i, rfl⟩, _⟩ := hb
    have hL : 0 < UPSTREAM_PAGE_LIMIT := by decide
    exact Nat.lt_of_lt_of_le (by omega) (Nat.le_add_right _ _)
  · rw [if_neg hc]
    exact List.Pairwise.nil
termination_by total - skip
decreasing_by simp only [UPSTREAM_PAGE_LIMIT] at *; omega

/-- When every attempted later page yields exactly
`min UPSTREAM_PAGE_LIMIT (total - s)` items, the while loop entered at `skip`
recovers exactly the `total - skip` remaining records. -/
theorem fetchRemaining_length (u : Upstream) (total : Nat)
    (hlen : ∀ s, s < total → (pageItems u s).length = min UPSTREAM_PAGE_LIMIT (total - s))
    (skip : Nat) :
    (fetchRemaining u total skip).length = total - skip := by
  rw [fetchRemaining_eq]
  by_cases hc : skip < total
  · rw [if_pos hc, List.length_append, hlen skip hc,
      fetchRemaining_length u total hlen (skip + UPSTREAM_PAGE_LIMIT)]
    have hL : UPSTREAM_PAGE_LIMIT = 100 := rfl
    rcases Nat.le_total (total - skip) UPSTREAM_PAGE_LIMIT with h | h
    · rw [Nat.min_eq_right h]
      omega
    · rw [Nat.min_eq_left h]
      rw [hL] at *
      omega
  · rw [if_neg hc]
    simp
    omega
termination_by total - skip
decreasing_by simp only [UPSTREAM_PAGE_LIMIT] at *; omega

/-- If every attempt of a retry loop fails, the loop completes without a
`break` and yields `none`. -/
theorem attemptLoop_none (f : Nat → FetchOutcome) :
    ∀ fuel start, (∀ i, start ≤ i → i < start + fuel → f i = .failure) →
      attemptLoop f fuel start = none := by
  intro fuel
  induction fuel with
  | zero => intro start _; rfl
  | succ n ih =>
    intro start h
    have h0 : f start = .failure := h start (Nat.le_refl _) (by omega)
    simp only [attemptLoop, h0]
    exact ih (start + 1) (fun i h1 h2 => h i (by omega) (by omega))

/-- A retry loop whose current attempt succeeds breaks at once with that
attempt's body. -/
theorem attemptLoop_succ_success (f : Nat → FetchOutcome) (fuel attempt : Nat) (body : RespBody)
    (h : f attempt = .success body) :
    attemptLoop f (fuel + 1) attempt = some body := by
  simp [attemptLoop, h]

/-! ### The query path -/

/-- On a non-empty snapshot, `search_messages` always reaches the scan/slice
path and returns the filtered list's length, the echoed parameters, and the
Python slice `matches[(page-1)*limit : (page-1)*limit + limit]`. -/
theorem search_messages_ok (cache : List Msg) (query : String) (page limit : Nat)
    (hc : cache ≠ []) :
    search_messages cache query page limit =
      .ok ⟨(cache.filter (is_match (lower query))).length, page, limit,
        ((cache.filter (is_match (lower query))).take ((page - 1) * limit + limit)).drop
          ((page - 1) * limit)⟩ := by
  have hce : cache.isEmpty = false := by
    cases cache with
    | nil => exact absurd rfl hc
    | cons a t => rfl
  simp [search_messages, hce]

/-- Concatenating the slices `[i*limit : i*limit + limit]` for `i < k`
reproduces the first `k * limit` elements. -/
theorem flatten_page_slices {α : Type} (L : List α) (limit : Nat) :
    ∀ k, (((List.range k).map (fun i => (L.take (i * limit + limit)).drop (i * limit))).flatten)
      = L.take (k * limit) := by
  intro k
  induction k with
  | zero => simp
  | succ n ih =>
    rw [List.range_succ, List.map_append, List.flatten_append, ih]
    simp only [List.map_cons, List.map_nil, List.flatten_cons, List.flatten_nil,
      List.append_nil]
    rw [List.drop_take]
    have h1 : n * limit + limit - n * limit = limit := by omega
    have h2 : (n + 1) * limit = n * limit + limit := by ring
    rw [h1, h2, List.take_add]

/-- Claim C1 — for every non-empty snapshot and non-empty query, the search
result's `total_matches` equals the number of records whose lower-cased
`message` or lower-cased `user_name` contains the lower-cased query as a
substring. -/
theorem search_total_matches_count (cache : List Msg) (query : String) (page limit : Nat)
    (hc : cache ≠ []) (hq : query ≠ "") :
    ∃ r, search_messages cache query page limit = .ok r ∧
      r.total_matches = cache.countP (fun m =>
        occursIn (lower query) (lower m.message) || occursIn (lower query) (lower m.user_name)) := by
  refine ⟨_, search_messages_ok cache query page limit hc, ?_⟩
  rw [List.countP_eq_length_filter]
  rfl

/-- Witness for C1: the spec's worked example (`query = "hello"` matches both
records, one by `message`, one by `user_name`). -/
theorem search_total_matches_count_witness :
    (exCache ≠ [] ∧ "hello" ≠ "") ∧
    ∃ r, search_messages exCache "hello" 1 10 = .ok r ∧
      r.total_matches = exCache.countP (fun m =>
        occursIn (lower "hello") (lower m.message) ||
          occursIn (lower "hello") (lower m.user_name)) :=
  ⟨⟨by decide, by decide⟩,
    search_total_matches_count exCache "hello" 1 10 (by decide) (by decide)⟩

/-- Claim C2 — for a non-empty snapshot, non-empty query, `page ≥ 1` and
`limit ∈ [1,100]`, the result's items are the slice of the ordered match list
from `(page-1)*limit` of length at most `limit`, and `page_number`/`page_limit`
echo the request. -/
theorem search_page_slice (cache : List Msg) (query : String) (page limit : Nat)
    (hc : cache ≠ []) (hq : query ≠ "") (hp : 1 ≤ page) (hl1 : 1 ≤ limit) (hl2 : limit ≤ 100) :
    search_messages cache query page limit =
      .ok ⟨(cache.filter (is_match (lower query))).length, page, limit,
        ((cache.filter (is_match (lower query))).drop ((page - 1) * limit)).take limit⟩ ∧
    (search_messages cache query page limit).itemsOf.length ≤ limit := by
  have hslice :
      ((cache.filter (is_match (lower query))).take ((page - 1) * limit + limit)).drop
          ((page - 1) * limit)
        = ((cache.filter (is_match (lower query))).drop ((page - 1) * limit)).take limit := by
    rw [List.drop_take, Nat.add_sub_cancel_left]
  constructor
  · rw [search_messages_ok cache query page limit hc, hslice]
  · rw [search_messages_ok cache query page limit hc]
    simp only [SearchOutcome.itemsOf, hslice]
    exact List.length_take_le _ _

/-- Witness for C2: the worked example at `page = 1`, `limit = 10`. -/
theorem search_page_slice_witness :
    (exCache ≠ [] ∧ "hello" ≠ "" ∧ 1 ≤ 1 ∧ 1 ≤ 10 ∧ 10 ≤ 100) ∧
    (search_messages exCache "hello" 1 10 =
      .ok ⟨(exCache.filter (is_match (lower "hello"))).length, 1, 10,
        ((exCache.filter (is_match (lower "hello"))).drop ((1 - 1) * 10)).take 10⟩ ∧
    (search_messages exCache "hello" 1 10).itemsOf.length ≤ 10) :=
  ⟨⟨by decide, by decide, by decide, by decide, by decide⟩,
    search_page_slice exCache "hello" 1 10 (by decide) (by decide) (by decide) (by decide)
      (by decide)⟩

/-- Claim C3 — for a fixed non-empty snapshot, non-empty query and limit,
concatenating the items of pages `1..k` (with `k` covering all matches)
yields exactly the full ordered match list: no duplicates, no omissions. -/
theorem search_pagination_concat (cache : List Msg) (query : String) (limit k : Nat)
    (hc : cache ≠ []) (hq : query ≠ "") (hl1 : 1 ≤ limit)
    (hk : (cache.filter (is_match (lower query))).length ≤ k * limit) :
    (((List.range k).map
        (fun i => (search_messages cache query (i + 1) limit).itemsOf)).flatten)
      = cache.filter (is_match (lower query)) := by
  have hpage : ∀ i : Nat,
      (search_messages cache query (i + 1) limit).itemsOf
        = ((cache.filter (is_match (lower query))).take (i * limit + limit)).drop
            (i * limit) := by
    intro i
    rw [search_messages_ok cache query (i + 1) limit hc]
    simp [SearchOutcome.itemsOf]
  simp only [hpage]
  rw [flatten_page_slices (cache.filter (is_match (lower query))) limit k]
  exact List.take_of_length_le hk

/-- Witness for C3: the worked example with `limit = 1`, `k = 2` pages
covering both matches. -/
theorem search_pagination_concat_witness :
    (exCache ≠ [] ∧ "hello" ≠ "" ∧ 1 ≤ 1 ∧
      (exCache.filter (is_match (lower "hello"))).length ≤ 2 * 1) ∧
    (((List.range 2).map
        (fun i => (search_messages exCache "hello" (i + 1) 1).itemsOf)).flatten)
      = exCache.filter (is_match (lower "hello")) :=
  ⟨⟨by decide, by decide, by decide, by decide⟩,
    search_pagination_concat exCache "hello" 1 2 (by decide) (by decide) (by decide) (by decide)⟩

/-- Claim C4 — an empty snapshot makes `search_messages` raise the HTTP 503
`ServiceUnavailable` error for every query, page and limit, while a non-empty
snapshot never does (zero matches still yield a result), so "no data loaded"
and "query matched nothing" are distinguishable. -/
theorem search_empty_snapshot_unavailable (cache : List Msg) (query : String) (page limit : Nat) :
    (cache = [] → search_messages cache query page limit = .serviceUnavailable) ∧
    (cache ≠ [] → ∃ r, search_messages cache query page limit = .ok r) := by
  constructor
  · rintro rfl
    rfl
  · intro hc
    exact ⟨_, search_messages_ok cache query page limit hc⟩

/-- Witness for C4: the empty snapshot raises; the worked example does not,
even for a query (`"zzz"`) matching nothing. -/
theorem search_empty_snapshot_unavailable_witness :
    (search_messages [] "zzz" 1 10 = .serviceUnavailable) ∧
    (exCache ≠ [] ∧ ∃ r, search_messages exCache "zzz" 1 10 = .ok r) :=
  ⟨(search_empty_snapshot_unavailable [] "zzz" 1 10).1 rfl,
    by decide,
    (search_empty_snapshot_unavailable exCache "zzz" 1 10).2 (by decide)⟩

/-- Claim C5 — with a non-empty snapshot, a page starting at or beyond the
match count returns an empty item list together with the correct
`total_matches`, and raises no error. -/
theorem search_page_beyond_last (cache : List Msg) (query : String) (page limit : Nat)
    (hc : cache ≠ []) (hq : query ≠ "") (hl1 : 1 ≤ limit) (hl2 : limit ≤ 100)
    (hbeyond : (cache.filter (is_match (lower query))).length ≤ (page - 1) * limit) :
    search_messages cache query page limit =
      .ok ⟨(cache.filter (is_match (lower query))).length, page, limit, []⟩ := by
  rw [search_messages_ok cache query page limit hc]
  have h1 : ((cache.filter (is_match (lower query))).take ((page - 1) * limit + limit)).drop
      ((page - 1) * limit) = [] := by
    apply List.drop_eq_nil_of_le
    rw [List.length_take]
    exact le_trans (min_le_right _ _) hbeyond
  rw [h1]

/-- Witness for C5: the worked example at `page = 5`, `limit = 10`: both
matches lie before index 40, so the page is empty but `total_matches = 2`. -/
theorem search_page_beyond_last_witness :
    (exCache ≠ [] ∧ "hello" ≠ "" ∧ 1 ≤ 10 ∧ 10 ≤ 100 ∧
      (exCache.filter (is_match (lower "hello"))).length ≤ (5 - 1) * 10) ∧
    search_messages exCache "hello" 5 10 =
      .ok ⟨(exCache.filter (is_match (lower "hello"))).length, 5, 10, []⟩ :=
  ⟨⟨by decide, by decide, by decide, by decide, by decide⟩,
    search_page_beyond_last exCache "hello" 5 10 (by decide) (by decide) (by decide) (by decide)
      (by decide)⟩

/-! ### The load path -/

/-- Claim C6 — if every retry attempt for the first upstream page fails, the
load fails with the `ConnectionError` (`CriticalLoadFailure`), the startup
handler catches it, and the snapshot is left empty with the service still
running. -/
theorem first_page_retries_exhausted (u : Upstream)
    (hfail : ∀ i, i < MAX_RETRIES → u 0 i = .failure) :
    fetch_all_messages u = .criticalFailure ∧ startup_event u = [] := by
  have h0 : attemptLoop (u 0) MAX_RETRIES 0 = none :=
    attemptLoop_none (u 0) MAX_RETRIES 0 (fun i _ h2 => hfail i (by omega))
  constructor
  · simp [fetch_all_messages, h0]
  · simp [startup_event, fetch_all_messages, h0]

/-- Witness for C6: an upstream that fails every request. -/
theorem first_page_retries_exhausted_witness :
    (∀ i, i < MAX_RETRIES → uFail 0 i = .failure) ∧
    (fetch_all_messages uFail = .criticalFailure ∧ startup_event uFail = []) :=
  ⟨by decide, first_page_retries_exhausted uFail (by decide)⟩

/-- Claim C7 — a successful first page reporting `total = 0` yields the empty
snapshot at once with no error and no mismatch warning; the result is the
same for every upstream agreeing on offset 0 (no further request is
consulted); subsequent searches then observe `ServiceUnavailable`. -/
theorem total_zero_empty_snapshot (u : Upstream) (body : RespBody)
    (hfirst : u 0 0 = .success body) (htot : body.total = some 0) :
    (∀ v : Upstream, v 0 = u 0 → fetch_all_messages v = .loaded [] false) ∧
    startup_event u = [] ∧
    (∀ query page limit,
      search_messages (startup_event u) query page limit = .serviceUnavailable) := by
  have key : ∀ v : Upstream, v 0 = u 0 → fetch_all_messages v = .loaded [] false := by
    intro v hv
    have hv0 : v 0 0 = .success body := by rw [hv]; exact hfirst
    have h0 : attemptLoop (v 0) MAX_RETRIES 0 = some body :=
      attemptLoop_succ_success (v 0) 4 0 body hv0
    simp [fetch_all_messages, h0, htot]
  have hs : startup_event u = [] := by
    simp [startup_event, key u rfl]
  exact ⟨key, hs, fun q p l => by rw [hs]; rfl⟩

/-- Witness for C7: an upstream reporting `total = 0` on the first page. -/
theorem total_zero_empty_snapshot_witness :
    (uZero 0 0 = .success ⟨some 0, some []⟩ ∧
      (RespBody.mk (some 0) (some [])).total = some 0) ∧
    ((∀ v : Upstream, v 0 = uZero 0 → fetch_all_messages v = .loaded [] false) ∧
      startup_event uZero = [] ∧
      (∀ query page limit,
        search_messages (startup_event uZero) query page limit = .serviceUnavailable)) :=
  ⟨⟨rfl, rfl⟩, total_zero_empty_snapshot uZero ⟨some 0, some []⟩ rfl rfl⟩

/-- Claim C8 — after a successful first page with reported total above the
page size, the loop attempts exactly the offsets `j * 100` (`j ≥ 1`) strictly
below the total, in increasing order, and the snapshot is the first page's
items followed by the concatenation, in offset order, of each later page's
items (a page whose retries are exhausted contributes `[]` and the loop still
advances). -/
theorem later_pages_best_effort (u : Upstream) (body : RespBody)
    (h0 : attemptLoop (u 0) MAX_RETRIES 0 = some body)
    (hT : UPSTREAM_PAGE_LIMIT < body.total.getD 0) :
    (∀ s, s ∈ offsetList (body.total.getD 0) UPSTREAM_PAGE_LIMIT ↔
      ((∃ j, 1 ≤ j ∧ s = j * UPSTREAM_PAGE_LIMIT) ∧ s < body.total.getD 0)) ∧
    List.Pairwise (· < ·) (offsetList (body.total.getD 0) UPSTREAM_PAGE_LIMIT) ∧
    ∃ w, fetch_all_messages u =
      .loaded (body.items.getD [] ++
        (((offsetList (body.total.getD 0) UPSTREAM_PAGE_LIMIT).map (pageItems u)).flatten)) w := by
  have hL : UPSTREAM_PAGE_LIMIT = 100 := rfl
  refine ⟨?_, offsetList_pairwise _ _, ?_⟩
  · intro s
    rw [mem_offsetList]
    constructor
    · rintro ⟨⟨i, rfl⟩, hlt⟩
      exact ⟨⟨i + 1, by omega, by ring⟩, hlt⟩
    · rintro ⟨⟨j, hj1, rfl⟩, hlt⟩
      refine ⟨⟨j - 1, ?_⟩, hlt⟩
      rw [hL] at *
      omega
  · have hne : ¬ body.total.getD 0 = 0 := by omega
    have hfe : fetch_all_messages u =
        .loaded (body.items.getD [] ++
            (((offsetList (body.total.getD 0) UPSTREAM_PAGE_LIMIT).map (pageItems u)).flatten))
          (decide ((body.items.getD [] ++
            (((offsetList (body.total.getD 0) UPSTREAM_PAGE_LIMIT).map
              (pageItems u)).flatten)).length ≠ body.total.getD 0)) := by
      simp only [fetch_all_messages, h0]
      rw [if_neg hne, if_pos hT, fetchRemaining_eq_flatten]
    exact ⟨_, hfe⟩

/-- Witness for C8: the spec's `total = 250` example with offset 200 failing
permanently — the snapshot has the 200 records of the two successful pages,
the mismatch warning is logged, and search still serves those records. -/
theorem later_pages_best_effort_witness :
    (attemptLoop (u250 0) MAX_RETRIES 0 = some body250 ∧
      UPSTREAM_PAGE_LIMIT < body250.total.getD 0) ∧
    ((∀ s, s ∈ offsetList (body250.total.getD 0) UPSTREAM_PAGE_LIMIT ↔
        ((∃ j, 1 ≤ j ∧ s = j * UPSTREAM_PAGE_LIMIT) ∧ s < body250.total.getD 0)) ∧
      List.Pairwise (· < ·) (offsetList (body250.total.getD 0) UPSTREAM_PAGE_LIMIT) ∧
      ∃ w, fetch_all_messages u250 =
        .loaded (body250.items.getD [] ++
          (((offsetList (body250.total.getD 0) UPSTREAM_PAGE_LIMIT).map
            (pageItems u250)).flatten)) w) ∧
    fetch_all_messages u250 = .loaded (List.replicate 200 m1) true ∧
    search_messages (List.replicate 200 m1) "hello" 1 10 =
      .ok ⟨200, 1, 10, List.replicate 10 m1⟩ :=
  ⟨⟨by decide, by decide⟩,
    later_pages_best_effort u250 body250 (by decide) (by decide),
    by decide, by decide⟩

/-- Claim C9 — when every page fetch succeeds with exactly
`min (page size) (total - offset)` items, the snapshot's length equals the
reported total (and no mismatch warning fires); and whenever the first page
succeeds at all, the loader returns a snapshot — the warning flag records a
count mismatch exactly, and a mismatch never raises or blocks serving. -/
theorem snapshot_length_invariant (u : Upstream) (body : RespBody) (total : Nat)
    (h0 : attemptLoop (u 0) MAX_RETRIES 0 = some body)
    (htot : body.total = some total) (hpos : 0 < total)
    (hfirst : (body.items.getD []).length = min UPSTREAM_PAGE_LIMIT total)
    (hrest : ∀ s, s < total → (pageItems u s).length = min UPSTREAM_PAGE_LIMIT (total - s)) :
    (∃ snapshot, fetch_all_messages u = .loaded snapshot false ∧ snapshot.length = total) ∧
    (∀ v : Upstream, ∀ b : RespBody, attemptLoop (v 0) MAX_RETRIES 0 = some b →
      ∃ s w, fetch_all_messages v = .loaded s w ∧ (w = true ↔ s.length ≠ b.total.getD 0)) := by
  constructor
  · have hne : ¬ total = 0 := by omega
    by_cases hgt : UPSTREAM_PAGE_LIMIT < total
    · have hlen :
          (body.items.getD [] ++ fetchRemaining u total UPSTREAM_PAGE_LIMIT).length = total := by
        rw [List.length_append, hfirst, fetchRemaining_length u total hrest UPSTREAM_PAGE_LIMIT,
          Nat.min_eq_left (Nat.le_of_lt hgt)]
        omega
      refine ⟨_, ?_, hlen⟩
      simp only [fetch_all_messages, h0, htot, Option.getD_some]
      rw [if_neg hne, if_pos hgt]
      congr 1
      rw [hlen]
      simp
    · have hlen : (body.items.getD []).length = total := by
        rw [hfirst, Nat.min_eq_right (by omega)]
      refine ⟨_, ?_, hlen⟩
      simp only [fetch_all_messages, h0, htot, Option.getD_some]
      rw [if_neg hne, if_neg hgt]
      congr 1
      rw [hlen]
      simp
  · intro v b hb
    by_cases hz : b.total.getD 0 = 0
    · refine ⟨[], false, ?_, by simp [hz]⟩
      simp [fetch_all_messages, hb, hz]
    · by_cases hgt : UPSTREAM_PAGE_LIMIT < b.total.getD 0
      · have hfe : fetch_all_messages v =
            .loaded (b.items.getD [] ++ fetchRemaining v (b.total.getD 0) UPSTREAM_PAGE_LIMIT)
              (decide ((b.items.getD [] ++
                fetchRemaining v (b.total.getD 0) UPSTREAM_PAGE_LIMIT).length
                  ≠ b.total.getD 0)) := by
          simp only [fetch_all_messages, hb]
          rw [if_neg hz, if_pos hgt]
        exact ⟨_, _, hfe, by simp⟩
      · have hfe : fetch_all_messages v =
            .loaded (b.items.getD [])
              (decide ((b.items.getD []).length ≠ b.total.getD 0)) := by
          simp only [fetch_all_messages, hb]
          rw [if_neg hz, if_neg hgt]
        exact ⟨_, _, hfe, by simp⟩

/-- Witness for C9: the fully successful `total = 150` upstream with exact
page sizes yields a 150-record snapshot and no warning. -/
theorem snapshot_length_invariant_witness :
    (attemptLoop (u150 0) MAX_RETRIES 0 = some body150 ∧
      body150.total = some 150 ∧ 0 < 150 ∧
      (body150.items.getD []).length = min UPSTREAM_PAGE_LIMIT 150 ∧
      (∀ s, s < 150 → (pageItems u150 s).length = min UPSTREAM_PAGE_LIMIT (150 - s))) ∧
    ((∃ snapshot, fetch_all_messages u150 = .loaded snapshot false ∧ snapshot.length = 150) ∧
      (∀ v : Upstream, ∀ b : RespBody, attemptLoop (v 0) MAX_RETRIES 0 = some b →
        ∃ s w, fetch_all_messages v = .loaded s w ∧ (w = true ↔ s.length ≠ b.total.getD 0))) :=
  ⟨⟨by decide, by decide, by decide, by decide, by decide⟩,
    snapshot_length_invariant u150 body150 150 (by decide) (by decide) (by decide) (by decide)
      (by decide)⟩

/-- Claim C10 — a successful first-page response whose JSON lacks a `"total"`
field is treated as `total = 0`: the loader returns an empty snapshot without
error even though the response carries items, and subsequent searches report
`ServiceUnavailable`. -/
theorem missing_total_empty_snapshot (u : Upstream) (body : RespBody) (items : List Msg)
    (hfirst : u 0 0 = .success body) (htot : body.total = none)
    (hitems : body.items = some items) (hne : items ≠ []) :
    fetch_all_messages u = .loaded [] false ∧
    startup_event u = [] ∧
    (∀ query page limit,
      search_messages (startup_event u) query page limit = .serviceUnavailable) := by
  have h0 : attemptLoop (u 0) MAX_RETRIES 0 = some body :=
    attemptLoop_succ_success (u 0) 4 0 body hfirst
  have hload : fetch_all_messages u = .loaded [] false := by
    simp [fetch_all_messages, h0, htot]
  have hs : startup_event u = [] := by
    simp [startup_event, hload]
  exact ⟨hload, hs, fun q p l => by rw [hs]; rfl⟩

/-- Witness for C10: a first page with one item but no `"total"` field. -/
theorem missing_total_empty_snapshot_witness :
    (uNoTotal 0 0 = .success ⟨none, some [m1]⟩ ∧
      (RespBody.mk none (some [m1])).total = none ∧
      (RespBody.mk none (some [m1])).items = some [m1] ∧ [m1] ≠ []) ∧
    (fetch_all_messages uNoTotal = .loaded [] false ∧
      startup_event uNoTotal = [] ∧
      (∀ query page limit,
        search_messages (startup_event uNoTotal) query page limit = .serviceUnavailable)) :=
  ⟨⟨rfl, rfl, rfl, by decide⟩,
    missing_total_empty_snapshot uNoTotal ⟨none, some [m1]⟩ [m1] rfl rfl rfl (by decide)⟩

end App
